import Mathlib

set_option maxHeartbeats 1000000

/-!
Verification of the calculus engine of `opticalmaterialspy` against its
specification.  The embedding follows `opticalmaterialspy/_material_base.py`.

Numeric model: wavelengths, unit factors and grid data are embedded as exact
rationals (`ℚ`); permittivity and refractive-index values live in `ℝ`
(Python-float rounding is abstracted to exact arithmetic).  The two lazily
populated caches `nDer1Func` / `nDer2Func` of a material instance are
modelled by an explicit state record holding the sampled per-grid-point
derivative values from which the `interp1d` interpolant is built; the state
additionally counts at how many grid points the abstract permittivity
provider `_eps` has been evaluated, which is the observable the spec uses to
express cache idempotence.
-/

/-- Errors of the engine: the failing `assert` in `_convertWavelengthUnitsNm`
is a range error whose message names the material's valid bounds
(`Wavelength not in range %.1f nm to %.1f nm.`), and scipy's `interp1d`
raises a `ValueError` when the interpolant is evaluated outside the sampled
grid span. -/
inductive MatError where
  | range (wlMin wlMax : ℚ)
  | interp
  deriving DecidableEq

/-- A material: validity bounds in nanometres (the constructor defaults in
the source are `wlMinNm=300.`, `wlMaxNm=5000.`) together with the abstract
permittivity provider `_eps`, the single abstract method each concrete
material implements.  `none` is the "no wavelength" sentinel (Python
`None`). -/
structure Material where
  wlMin : ℚ
  wlMax : ℚ
  _eps : Option ℚ → ℝ

/-- The fixed sampling grid `self._wls = np.linspace(wlMin, wlMax, 100, False)`:
100 points starting at `wlMin` with uniform step `(wlMax - wlMin)/100`, the
endpoint `wlMax` excluded.  It is a pure function of the bounds fixed at
construction; no caller-supplied parameter enters it. -/
def Material.wls (m : Material) : List ℚ :=
  (List.range 100).map fun i : ℕ => m.wlMin + (i : ℚ) * ((m.wlMax - m.wlMin) / 100)

/-- `self._wlStep = (self._wlMax - self._wlMin)/100.` -/
def Material.wlStep (m : Material) : ℚ :=
  (m.wlMax - m.wlMin) / 100

/-- Unit factor inferred by `_convertWavelengthUnitsNm` for a batch: the two
`np.all` tests over the whole batch, evaluated once per call. -/
def wlFactorBatch (m : Material) (ws : List ℚ) : ℚ :=
  if ws.all fun w => decide (w ≤ m.wlMax * (1 / 10 ^ 9)) then 10 ^ 9
  else if ws.all fun w => decide (w ≤ m.wlMax * (1 / 10 ^ 3)) then 10 ^ 3
  else 1

/-- Unit factor inferred by `_convertWavelengthUnitsNm` for a scalar
wavelength (`np.all` of a scalar comparison is the comparison itself). -/
def wlFactor (m : Material) (w : ℚ) : ℚ :=
  if w ≤ m.wlMax * (1 / 10 ^ 9) then 10 ^ 9
  else if w ≤ m.wlMax * (1 / 10 ^ 3) then 10 ^ 3
  else 1

/-- `_convertWavelengthUnitsNm` on a scalar non-sentinel wavelength: scale by
the inferred factor, then `assert` that the scaled value lies within
`[wlMin, wlMax]`, raising the range error naming the bounds otherwise. -/
def convertScalar (m : Material) (w : ℚ) : Except MatError ℚ :=
  let wl := w * wlFactor m w
  if m.wlMin ≤ wl ∧ wl ≤ m.wlMax then .ok wl
  else .error (.range m.wlMin m.wlMax)

/-- `_convertWavelengthUnitsNm` on a unit-homogeneous batch of wavelengths. -/
def convertBatch (m : Material) (ws : List ℚ) : Except MatError (List ℚ) :=
  let scaled := ws.map fun w => w * wlFactorBatch m ws
  if scaled.all fun wl => decide (m.wlMin ≤ wl) && decide (wl ≤ m.wlMax) then .ok scaled
  else .error (.range m.wlMin m.wlMax)

/-- `_convertWavelengthUnitsNm` including the sentinel branch
(`if wavelength is not False and is not None`): the sentinel is forwarded
unchanged, with no scaling and no range validation. -/
def convertOpt (m : Material) : Option ℚ → Except MatError (Option ℚ)
  | none => .ok none
  | some w => (convertScalar m w).map some

/-- Mutable state of a material instance: the two lazily populated caches
`self.nDer1Func` / `self.nDer2Func` (represented by the sampled per-grid-point
derivative values the `interp1d` interpolant is built from; `none` is Python
`None`), plus an instrumentation counter of how many grid points the
permittivity provider `_eps` has been evaluated at. -/
structure CacheState where
  nDer1Samples : Option (List ℝ)
  nDer2Samples : Option (List ℝ)
  epsCalls : ℕ

/-- State of a freshly constructed instance: both caches are `None` and the
provider has not been consulted. -/
def initState : CacheState :=
  ⟨none, none, 0⟩

/-- Public `eps` (decorated with `convertWavelengthUnitsNm`): normalize the
wavelength, then delegate to the provider `_eps`; the counter records one
provider evaluation. -/
noncomputable def Material.eps (m : Material) (σ : CacheState) (w? : Option ℚ) :
    Except MatError ℝ × CacheState :=
  match convertOpt m w? with
  | .error e => (.error e, σ)
  | .ok wl? => (.ok (m._eps wl?), ⟨σ.nDer1Samples, σ.nDer2Samples, σ.epsCalls + 1⟩)

/-- `n(wavelength) = self.eps(wavelength)**0.5` (square root of the
permittivity delivered by the decorated `eps`). -/
noncomputable def Material.n (m : Material) (σ : CacheState) (w? : Option ℚ) :
    Except MatError ℝ × CacheState :=
  let r := m.eps σ w?
  (r.1.map Real.sqrt, r.2)

/-- `self.n(self._wls)`: the decorated `eps` normalizes the grid as one
batch, the provider is then evaluated at every grid point (one vectorized
call touching `ws'.length` points), and `n` takes square roots elementwise. -/
noncomputable def Material.nList (m : Material) (σ : CacheState) (ws : List ℚ) :
    Except MatError (List ℝ) × CacheState :=
  match convertBatch m ws with
  | .error e => (.error e, σ)
  | .ok ws' => (.ok (ws'.map fun w => Real.sqrt (m._eps (some w))),
      ⟨σ.nDer1Samples, σ.nDer2Samples, σ.epsCalls + ws'.length⟩)

/-- `np.gradient(ys, h)` with the default `edge_order=1`: central differences
at interior points, one-sided differences at the two endpoints (numpy
requires at least two samples; here the grid always has 100). -/
noncomputable def npGradient (ys : List ℝ) (h : ℚ) : List ℝ :=
  (List.range ys.length).map fun i =>
    if i = 0 then (ys.getD 1 0 - ys.getD 0 0) / (h : ℝ)
    else if i = ys.length - 1 then (ys.getD i 0 - ys.getD (i - 1) 0) / (h : ℝ)
    else (ys.getD (i + 1) 0 - ys.getD (i - 1) 0) / (2 * (h : ℝ))

/-- Piecewise-linear interpolation through the listed points (scipy
`interp1d`, default `kind='linear'`): on a segment `[x0, x1]` the value is
`y0 + (y1 - y0)·(x - x0)/(x1 - x0)`; the node ratio is computed exactly in
`ℚ` and cast. -/
noncomputable def interpPts : List (ℚ × ℝ) → ℚ → ℝ
  | [], _ => 0
  | [(_, y0)], _ => y0
  | (x0, y0) :: (x1, y1) :: rest, x =>
      if x ≤ x1 then y0 + (y1 - y0) * (((x - x0) / (x1 - x0) : ℚ) : ℝ)
      else interpPts ((x1, y1) :: rest) x

/-- Value of the interpolant built from abscissae `xs` and ordinates `ys`. -/
noncomputable def interpVal (xs : List ℚ) (ys : List ℝ) (x : ℚ) : ℝ :=
  interpPts (xs.zip ys) x

/-- Domain test of the `interp1d` interpolant: scipy raises a `ValueError`
outside `[xs[0], xs[-1]]`. -/
def inDomain (xs : List ℚ) (x : ℚ) : Bool :=
  match xs.head?, xs.getLast? with
  | some a, some b => decide (a ≤ x) && decide (x ≤ b)
  | _, _ => false

/-- Evaluating the interpolant built by `spi.interp1d(xs, ys)` at `x`. -/
noncomputable def interp1d (xs : List ℚ) (ys : List ℝ) (x : ℚ) : Except MatError ℝ :=
  if inDomain xs x then .ok (interpVal xs ys x) else .error .interp

/-- Evaluating the interpolant at a batch of points (elementwise, failing if
any point lies outside the domain). -/
noncomputable def interpList (xs : List ℚ) (ys : List ℝ) (pts : List ℚ) :
    Except MatError (List ℝ) :=
  if pts.all (inDomain xs) then .ok (pts.map (interpVal xs ys)) else .error .interp

/-- `_nDer1`: on a cache miss (`if not self.nDer1Func`), sample `n` over the
fixed grid, take `np.gradient` with the uniform step (units 1/nm), build and
cache the interpolant; every call returns the interpolant's value at the
given wavelength times `1e9` ([1/nm] → [1/m]).  The cache field is written
before the interpolant is evaluated.  Note: no unit normalization happens
here; the wavelength argument is used as passed. -/
noncomputable def Material._nDer1 (m : Material) (σ : CacheState) (w : ℚ) :
    Except MatError ℝ × CacheState :=
  match σ.nDer1Samples with
  | some ys => ((interp1d m.wls ys w).map fun v => v * 10 ^ 9, σ)
  | none =>
      match m.nList σ m.wls with
      | (.error e, σ') => (.error e, σ')
      | (.ok ns, σ') =>
          let ys := npGradient ns m.wlStep
          ((interp1d m.wls ys w).map fun v => v * 10 ^ 9,
            ⟨some ys, σ'.nDer2Samples, σ'.epsCalls⟩)

/-- `_nDer1` applied to an array of wavelengths (as in
`self._nDer1(self._wls)` inside `_nDer2`): the interpolant is evaluated
elementwise and each value is scaled by `1e9`. -/
noncomputable def Material._nDer1List (m : Material) (σ : CacheState) (pts : List ℚ) :
    Except MatError (List ℝ) × CacheState :=
  match σ.nDer1Samples with
  | some ys => ((interpList m.wls ys pts).map fun l => l.map fun v => v * 10 ^ 9, σ)
  | none =>
      match m.nList σ m.wls with
      | (.error e, σ') => (.error e, σ')
      | (.ok ns, σ') =>
          let ys := npGradient ns m.wlStep
          ((interpList m.wls ys pts).map fun l => l.map fun v => v * 10 ^ 9,
            ⟨some ys, σ'.nDer2Samples, σ'.epsCalls⟩)

/-- `_nDer2`: built the same way as `_nDer1`, but the sampled data is the
first derivative evaluated over the grid (`self._nDer1(self._wls)`,
including its `1e9` factor), and the result is again scaled by `1e9` on
every call. -/
noncomputable def Material._nDer2 (m : Material) (σ : CacheState) (w : ℚ) :
    Except MatError ℝ × CacheState :=
  match σ.nDer2Samples with
  | some ys => ((interp1d m.wls ys w).map fun v => v * 10 ^ 9, σ)
  | none =>
      match m._nDer1List σ m.wls with
      | (.error e, σ') => (.error e, σ')
      | (.ok ds, σ') =>
          let ys := npGradient ds m.wlStep
          ((interp1d m.wls ys w).map fun v => v * 10 ^ 9,
            ⟨σ'.nDer1Samples, some ys, σ'.epsCalls⟩)

/-- Public `nDer1`: delegates directly to `_nDer1`.  There is no
`convertWavelengthUnitsNm` decorator on it in the source. -/
noncomputable def Material.nDer1 (m : Material) (σ : CacheState) (w : ℚ) :
    Except MatError ℝ × CacheState :=
  m._nDer1 σ w

/-- Public `nDer2`: delegates directly to `_nDer2` (again undecorated). -/
noncomputable def Material.nDer2 (m : Material) (σ : CacheState) (w : ℚ) :
    Except MatError ℝ × CacheState :=
  m._nDer2 σ w

/-- `scipy.constants.c`, exactly 299792458 m/s. -/
noncomputable def speed_of_light : ℝ := 299792458

/-- `ng` (decorated): `self.n(wavelength) - (wavelength*1.e-9)*self.nDer1(wavelength)`
with `wavelength` the normalized nanometre value; `n` is evaluated first,
then `nDer1` (which may populate the derivative cache). -/
noncomputable def Material.ng (m : Material) (σ : CacheState) (w : ℚ) :
    Except MatError ℝ × CacheState :=
  match convertScalar m w with
  | .error e => (.error e, σ)
  | .ok wl =>
      let r1 := m.n σ (some wl)
      match r1.1 with
      | .error e => (.error e, r1.2)
      | .ok nv =>
          let r2 := m.nDer1 r1.2 wl
          match r2.1 with
          | .error e => (.error e, r2.2)
          | .ok dv => (.ok (nv - ((wl * (1 / 10 ^ 9) : ℚ) : ℝ) * dv), r2.2)

/-- `vg = spc.c / self.ng(wavelength)` (not itself decorated; `ng`
normalizes). -/
noncomputable def Material.vg (m : Material) (σ : CacheState) (w : ℚ) :
    Except MatError ℝ × CacheState :=
  let r := m.ng σ w
  (r.1.map fun g => speed_of_light / g, r.2)

/-- `gvd` (decorated): `(wavelength*1e-9)**3/(2 π c**2) * self.nDer2(wavelength)`. -/
noncomputable def Material.gvd (m : Material) (σ : CacheState) (w : ℚ) :
    Except MatError ℝ × CacheState :=
  match convertScalar m w with
  | .error e => (.error e, σ)
  | .ok wl =>
      let r := m.nDer2 σ wl
      (r.1.map fun d =>
        ((wl * (1 / 10 ^ 9) : ℚ) : ℝ) ^ 3 / (2 * Real.pi * speed_of_light ^ 2) * d, r.2)

/-- `beta0` (decorated): `2 π n(wavelength) / (wavelength*1e-9)`. -/
noncomputable def Material.beta0 (m : Material) (σ : CacheState) (w : ℚ) :
    Except MatError ℝ × CacheState :=
  match convertScalar m w with
  | .error e => (.error e, σ)
  | .ok wl =>
      let r := m.n σ (some wl)
      (r.1.map fun nv => 2 * Real.pi * nv / ((wl * (1 / 10 ^ 9) : ℚ) : ℝ), r.2)

/-- `beta1 = 1. / self.vg(wavelength)`. -/
noncomputable def Material.beta1 (m : Material) (σ : CacheState) (w : ℚ) :
    Except MatError ℝ × CacheState :=
  let r := m.vg σ w
  (r.1.map fun v => 1 / v, r.2)

/-- `beta2 = self.gvd(wavelength)`. -/
noncomputable def Material.beta2 (m : Material) (σ : CacheState) (w : ℚ) :
    Except MatError ℝ × CacheState :=
  m.gvd σ w

/-- `z0 = 120 π / self.n(wavelength)`. -/
noncomputable def Material.z0 (m : Material) (σ : CacheState) (w? : Option ℚ) :
    Except MatError ℝ × CacheState :=
  let r := m.n σ w?
  (r.1.map fun nv => 120 * Real.pi / nv, r.2)

/-- Static helper `_cauchy_equation`: the accumulation loop
`n = 0.; for i, c in enumerate(coefficients): n += c / wavelength**(2*i)`. -/
def Material._cauchy_equation (wavelength : ℚ) (coefficients : List ℚ) : ℚ :=
  coefficients.enum.foldl (fun n ic => n + ic.2 / wavelength ^ (2 * ic.1)) 0

/-- A material with the constructor's default bounds (300 nm, 5000 nm) and
an arbitrary permittivity provider `f`. -/
def matDef (f : Option ℚ → ℝ) : Material :=
  ⟨300, 5000, f⟩

/-- Concrete default-bounds material used for witnesses; the unit-conversion
layer never consults the provider, and the constant provider makes the
sampled derivative data evaluate to zeros. -/
noncomputable def mat0 : Material :=
  matDef fun _ => 0

/-- Running a sequence of `nDer1` queries, keeping only the final instance
state (used to observe how often the provider is consulted). -/
noncomputable def runNDer1 (m : Material) (σ : CacheState) (ws : List ℚ) : CacheState :=
  ws.foldl (fun s x => (m.nDer1 s x).2) σ

/-- The index values sampled over the grid during the first-derivative
cache build (`self.n(self._wls)`). -/
noncomputable def nSamples (m : Material) : List ℝ :=
  m.wls.map fun w => Real.sqrt (m._eps (some w))

/-- The per-grid-point first-derivative data cached in `nDer1Func`. -/
noncomputable def der1Samples (m : Material) : List ℝ :=
  npGradient (nSamples m) m.wlStep

/-- The per-grid-point second-derivative data cached in `nDer2Func`
(gradient of the first derivative evaluated over the grid, including the
`1e9` output scaling of `_nDer1`). -/
noncomputable def der2Samples (m : Material) : List ℝ :=
  npGradient (m.wls.map fun x => interpVal m.wls (der1Samples m) x * 10 ^ 9) m.wlStep

/-! ## Basic facts about the sampling grid -/

theorem wls_length (m : Material) : m.wls.length = 100 := by
  simp [Material.wls]

theorem wls_getElem? (m : Material) {i : ℕ} (hi : i < 100) :
    m.wls[i]? = some (m.wlMin + i * ((m.wlMax - m.wlMin) / 100)) := by
  simp [Material.wls, List.getElem?_map, List.getElem?_range hi]

theorem wls_getD (m : Material) {i : ℕ} (hi : i < 100) :
    m.wls.getD i 0 = m.wlMin + i * ((m.wlMax - m.wlMin) / 100) := by
  simp [List.getD_eq_getElem?_getD, wls_getElem? m hi]

theorem wls_head? (m : Material) : m.wls.head? = some m.wlMin := by
  rw [List.head?_eq_getElem?, wls_getElem? m (by norm_num)]
  norm_num

theorem wls_getLast? (m : Material) :
    m.wls.getLast? = some (m.wlMin + 99 * ((m.wlMax - m.wlMin) / 100)) := by
  rw [List.getLast?_eq_getElem?, wls_length, show (100 : ℕ) - 1 = 99 from rfl,
    wls_getElem? m (by norm_num)]
  norm_num

theorem wls_pairwise (m : Material) (h : m.wlMin < m.wlMax) :
    m.wls.Pairwise (· < ·) := by
  rw [Material.wls, List.pairwise_map]
  have hs : 0 < (m.wlMax - m.wlMin) / 100 := div_pos (by linarith) (by norm_num)
  refine (List.pairwise_lt_range 100).imp ?_
  intro a b hab
  have hab' : (a : ℚ) < b := by exact_mod_cast hab
  have := mul_lt_mul_of_pos_right hab' hs
  linarith

theorem wls_mem_bounds (m : Material) (h : m.wlMin < m.wlMax) :
    ∀ w ∈ m.wls, m.wlMin ≤ w ∧ w < m.wlMax := by
  intro w hw
  rw [Material.wls, List.mem_map] at hw
  obtain ⟨i, hi, rfl⟩ := hw
  rw [List.mem_range] at hi
  have hs : 0 < (m.wlMax - m.wlMin) / 100 := div_pos (by linarith) (by norm_num)
  have hi' : (i : ℚ) ≤ 99 := by exact_mod_cast Nat.lt_succ_iff.mp hi
  have h0 : (0 : ℚ) ≤ i := Nat.cast_nonneg i
  constructor
  · nlinarith
  · nlinarith

/-! ## Behaviour of the unit normalizer -/

theorem wlFactor_eq_one (m : Material) {w : ℚ}
    (hsep : m.wlMax * (1 / 10 ^ 3) < m.wlMin) (hlo : m.wlMin ≤ w) (hhi : w ≤ m.wlMax) :
    wlFactor m w = 1 := by
  have hmax : 0 < m.wlMax := by linarith
  have h9 : m.wlMax * (1 / 10 ^ 9) ≤ m.wlMax * (1 / 10 ^ 3) := by nlinarith
  rw [wlFactor, if_neg (by linarith), if_neg (by linarith)]

theorem convertScalar_in_range (m : Material) {w : ℚ}
    (hsep : m.wlMax * (1 / 10 ^ 3) < m.wlMin) (hlo : m.wlMin ≤ w) (hhi : w ≤ m.wlMax) :
    convertScalar m w = .ok w := by
  rw [convertScalar]
  rw [wlFactor_eq_one m hsep hlo hhi]
  rw [mul_one]
  exact if_pos ⟨hlo, hhi⟩

theorem wlFactorBatch_wls (m : Material)
    (hsep : m.wlMax * (1 / 10 ^ 3) < m.wlMin) (h : m.wlMin < m.wlMax) :
    wlFactorBatch m m.wls = 1 := by
  have hmax : 0 < m.wlMax := by linarith
  have h9 : m.wlMax * (1 / 10 ^ 9) ≤ m.wlMax * (1 / 10 ^ 3) := by nlinarith
  have hmem : m.wlMin ∈ m.wls := by
    have := wls_head? m
    exact List.mem_of_mem_head? (by rw [this]; rfl)
  have c1 : ¬(m.wls.all fun w => decide (w ≤ m.wlMax * (1 / 10 ^ 9))) = true := by
    rw [List.all_eq_true]
    intro hall
    have := hall _ hmem
    rw [decide_eq_true_eq] at this
    linarith
  have c2 : ¬(m.wls.all fun w => decide (w ≤ m.wlMax * (1 / 10 ^ 3))) = true := by
    rw [List.all_eq_true]
    intro hall
    have := hall _ hmem
    rw [decide_eq_true_eq] at this
    linarith
  rw [wlFactorBatch, if_neg c1, if_neg c2]

theorem convertBatch_wls (m : Material)
    (hsep : m.wlMax * (1 / 10 ^ 3) < m.wlMin) (h : m.wlMin < m.wlMax) :
    convertBatch m m.wls = .ok m.wls := by
  rw [convertBatch]
  rw [wlFactorBatch_wls m hsep h]
  simp only [mul_one, List.map_id']
  rw [if_pos]
  rw [List.all_eq_true]
  intro w hw
  obtain ⟨h1, h2⟩ := wls_mem_bounds m h w hw
  simp [h1, le_of_lt h2]

/-! ## Facts about the numerical gradient -/

theorem npGradient_length (ys : List ℝ) (h : ℚ) :
    (npGradient ys h).length = ys.length := by
  rw [npGradient, List.length_map, List.length_range]

theorem npGradient_getD_zero (ys : List ℝ) (h : ℚ) (hl : 2 ≤ ys.length) :
    (npGradient ys h).getD 0 0 = (ys.getD 1 0 - ys.getD 0 0) / (h : ℝ) := by
  rw [npGradient, List.getD_eq_getElem?_getD, List.getElem?_map,
    List.getElem?_range (by omega)]
  simp

theorem npGradient_getD_last (ys : List ℝ) (h : ℚ) (hl : 2 ≤ ys.length) :
    (npGradient ys h).getD (ys.length - 1) 0
      = (ys.getD (ys.length - 1) 0 - ys.getD (ys.length - 2) 0) / (h : ℝ) := by
  rw [npGradient, List.getD_eq_getElem?_getD, List.getElem?_map,
    List.getElem?_range (by omega)]
  have h0 : ys.length - 1 ≠ 0 := by omega
  have h2 : ys.length - 1 - 1 = ys.length - 2 := by omega
  simp [h0, h2]

theorem npGradient_getD_mid (ys : List ℝ) (h : ℚ) {i : ℕ} (h0 : i ≠ 0)
    (hi : i + 1 < ys.length) :
    (npGradient ys h).getD i 0
      = (ys.getD (i + 1) 0 - ys.getD (i - 1) 0) / (2 * (h : ℝ)) := by
  rw [npGradient, List.getD_eq_getElem?_getD, List.getElem?_map,
    List.getElem?_range (by omega)]
  have h1 : i ≠ ys.length - 1 := by omega
  simp [h0, h1]

theorem npGradient_replicate {n : ℕ} (hn : 2 ≤ n) (c : ℝ) (h : ℚ) :
    npGradient (List.replicate n c) h = List.replicate n 0 := by
  rw [npGradient, List.length_replicate]
  rw [List.map_congr_left (g := fun _ : ℕ => (0 : ℝ)) ?_, List.map_const',
    List.length_range]
  intro i hi
  rw [List.mem_range] at hi
  have hD : ∀ j, j < n → (List.replicate n c).getD j 0 = c := by
    intro j hj
    rw [List.getD_eq_getElem?_getD, List.getElem?_replicate, if_pos hj]
    rfl
  by_cases h0 : i = 0
  · rw [if_pos h0, hD 0 (by omega), hD 1 (by omega), sub_self, zero_div]
  · by_cases h1 : i = n - 1
    · rw [if_neg h0, if_pos h1, hD i hi, hD (i - 1) (by omega), sub_self, zero_div]
    · rw [if_neg h0, if_neg h1, hD (i + 1) (by omega), hD (i - 1) (by omega),
        sub_self, zero_div]

/-! ## Facts about the piecewise-linear interpolant -/

theorem interpPts_zeros (pts : List (ℚ × ℝ)) (hz : ∀ p ∈ pts, p.2 = 0) (x : ℚ) :
    interpPts pts x = 0 := by
  induction pts with
  | nil => rfl
  | cons p rest ih =>
    obtain ⟨x0, y0⟩ := p
    cases rest with
    | nil => simpa using hz (x0, y0) (by simp)
    | cons q rest' =>
      obtain ⟨x1, y1⟩ := q
      have h0 : y0 = 0 := by simpa using hz (x0, y0) (by simp)
      have h1 : y1 = 0 := by simpa using hz (x1, y1) (by simp)
      rw [interpPts]
      split
      · rw [h0, h1]; ring
      · exact ih fun p hp => hz p (List.mem_cons_of_mem _ hp)

theorem interpPts_node (pts : List (ℚ × ℝ))
    (hp : pts.Pairwise fun p q => p.1 < q.1) :
    ∀ i, i < pts.length → interpPts pts (pts.getD i (0, 0)).1 = (pts.getD i (0, 0)).2 := by
  induction pts with
  | nil => intro i hi; simp at hi
  | cons p rest ih =>
    obtain ⟨x0, y0⟩ := p
    intro i hi
    cases rest with
    | nil =>
      have h0 : i = 0 := by simp at hi; omega
      subst h0
      rfl
    | cons q rest' =>
      obtain ⟨x1, y1⟩ := q
      have hx01 : x0 < x1 := (List.pairwise_cons.mp hp).1 (x1, y1) (by simp)
      match i with
      | 0 =>
        show interpPts ((x0, y0) :: (x1, y1) :: rest') x0 = y0
        rw [interpPts, if_pos (le_of_lt hx01), sub_self, zero_div]
        push_cast
        ring
      | 1 =>
        show interpPts ((x0, y0) :: (x1, y1) :: rest') x1 = y1
        rw [interpPts, if_pos (le_refl x1), div_self (by linarith)]
        push_cast
        ring
      | (j + 2) =>
        have hj' : j < rest'.length := by
          simp at hi
          omega
        have hgd : (((x0, y0) :: (x1, y1) :: rest' : List (ℚ × ℝ)).getD (j + 2) (0, 0))
            = rest'.getD j (0, 0) := by
          rw [List.getD_cons_succ, List.getD_cons_succ]
        have hmem : rest'.getD j (0, 0) ∈ rest' := by
          rw [List.getD_eq_getElem _ _ hj']
          exact List.getElem_mem hj'
        have htail := (List.pairwise_cons.mp hp).2
        have hgt : x1 < (rest'.getD j (0, 0)).1 :=
          (List.pairwise_cons.mp htail).1 _ hmem
        rw [hgd, interpPts, if_neg (not_le.mpr hgt)]
        have hrec := ih htail (j + 1) (by simpa using hj')
        rw [List.getD_cons_succ] at hrec
        exact hrec

theorem interpVal_node (xs : List ℚ) (ys : List ℝ) (hp : xs.Pairwise (· < ·))
    (hlen : xs.length = ys.length) {i : ℕ} (hi : i < xs.length) :
    interpVal xs ys (xs.getD i 0) = ys.getD i 0 := by
  have hfst : (xs.zip ys).map Prod.fst = xs := List.map_fst_zip xs ys (le_of_eq hlen)
  have hpz : (xs.zip ys).Pairwise fun p q => p.1 < q.1 := by
    rw [← hfst] at hp
    exact List.pairwise_map.mp hp
  have hzlen : (xs.zip ys).length = xs.length := by
    rw [List.length_zip, hlen, min_self]
  have hiz : i < (xs.zip ys).length := hzlen ▸ hi
  have hnode := interpPts_node (xs.zip ys) hpz i hiz
  have hgd : (xs.zip ys).getD i (0, 0) = (xs.getD i 0, ys.getD i 0) := by
    rw [List.getD_eq_getElem _ _ hiz, List.getElem_zip,
      List.getD_eq_getElem _ _ hi, List.getD_eq_getElem _ _ (hlen ▸ hi)]
  rw [hgd] at hnode
  simpa [interpVal] using hnode

theorem interpVal_zeros (xs : List ℚ) {n : ℕ} (x : ℚ) :
    interpVal xs (List.replicate n 0) x = 0 := by
  rw [interpVal]
  refine interpPts_zeros _ ?_ x
  intro p hp
  exact List.eq_of_mem_replicate (List.of_mem_zip hp).2

/-! ## Interpolant domain over the grid -/

theorem wls_le_last (m : Material) (h : m.wlMin < m.wlMax) :
    ∀ x ∈ m.wls, x ≤ m.wlMin + 99 * ((m.wlMax - m.wlMin) / 100) := by
  intro x hx
  rw [Material.wls, List.mem_map] at hx
  obtain ⟨i, hi, rfl⟩ := hx
  rw [List.mem_range] at hi
  have hs : 0 < (m.wlMax - m.wlMin) / 100 := div_pos (by linarith) (by norm_num)
  have hi' : (i : ℚ) ≤ 99 := by exact_mod_cast Nat.lt_succ_iff.mp hi
  nlinarith

theorem inDomain_wls (m : Material) (h : m.wlMin < m.wlMax) :
    ∀ x ∈ m.wls, inDomain m.wls x = true := by
  intro x hx
  have h1 := (wls_mem_bounds m h x hx).1
  have h2 := wls_le_last m h x hx
  rw [inDomain, wls_head? m, wls_getLast? m]
  simp [h1, h2]

theorem interpList_wls (m : Material) (h : m.wlMin < m.wlMax) (ys : List ℝ) :
    interpList m.wls ys m.wls = .ok (m.wls.map (interpVal m.wls ys)) := by
  rw [interpList, if_pos]
  rw [List.all_eq_true]
  exact inDomain_wls m h

/-! ## Cache behaviour of the derivative operations -/

theorem nList_wls (m : Material) (σ : CacheState)
    (hsep : m.wlMax * (1 / 10 ^ 3) < m.wlMin) (h : m.wlMin < m.wlMax) :
    m.nList σ m.wls = (.ok (nSamples m),
      ⟨σ.nDer1Samples, σ.nDer2Samples, σ.epsCalls + 100⟩) := by
  simp only [Material.nList, convertBatch_wls m hsep h, wls_length, nSamples]

theorem nDer1_cached (m : Material) (σ : CacheState) (w : ℚ) {ys : List ℝ}
    (hc : σ.nDer1Samples = some ys) :
    m.nDer1 σ w = ((interp1d m.wls ys w).map fun v => v * 10 ^ 9, σ) := by
  rw [Material.nDer1, Material._nDer1, hc]

theorem nDer1_fresh (m : Material) (σ : CacheState) (w : ℚ)
    (hc : σ.nDer1Samples = none)
    (hsep : m.wlMax * (1 / 10 ^ 3) < m.wlMin) (h : m.wlMin < m.wlMax) :
    m.nDer1 σ w = ((interp1d m.wls (der1Samples m) w).map fun v => v * 10 ^ 9,
      ⟨some (der1Samples m), σ.nDer2Samples, σ.epsCalls + 100⟩) := by
  rw [Material.nDer1, Material._nDer1, hc, nList_wls m σ hsep h]
  rfl

theorem eps_some (m : Material) (σ : CacheState) {w wl : ℚ}
    (hconv : convertScalar m w = .ok wl) :
    m.eps σ (some w) = (.ok (m._eps (some wl)),
      ⟨σ.nDer1Samples, σ.nDer2Samples, σ.epsCalls + 1⟩) := by
  simp only [Material.eps, convertOpt, hconv, Except.map]

theorem eps_none (m : Material) (σ : CacheState) :
    m.eps σ none = (.ok (m._eps none),
      ⟨σ.nDer1Samples, σ.nDer2Samples, σ.epsCalls + 1⟩) := by
  simp only [Material.eps, convertOpt]

theorem n_some (m : Material) (σ : CacheState) {w wl : ℚ}
    (hconv : convertScalar m w = .ok wl) :
    m.n σ (some w) = (.ok (Real.sqrt (m._eps (some wl))),
      ⟨σ.nDer1Samples, σ.nDer2Samples, σ.epsCalls + 1⟩) := by
  rw [Material.n, eps_some m σ hconv]
  rfl

theorem nDer1List_cached (m : Material) (σ : CacheState) (pts : List ℚ) {ys : List ℝ}
    (hc : σ.nDer1Samples = some ys) :
    m._nDer1List σ pts = ((interpList m.wls ys pts).map fun l => l.map fun v => v * 10 ^ 9, σ) := by
  rw [Material._nDer1List, hc]

theorem nDer1List_wls_fresh (m : Material) (σ : CacheState)
    (hc : σ.nDer1Samples = none)
    (hsep : m.wlMax * (1 / 10 ^ 3) < m.wlMin) (h : m.wlMin < m.wlMax) :
    m._nDer1List σ m.wls = (.ok (m.wls.map fun x => interpVal m.wls (der1Samples m) x * 10 ^ 9),
      ⟨some (der1Samples m), σ.nDer2Samples, σ.epsCalls + 100⟩) := by
  rw [Material._nDer1List, hc, nList_wls m σ hsep h]
  simp only [interpList_wls m h, Except.map, List.map_map]
  rfl

theorem nDer2_fresh (m : Material) (σ : CacheState) (w : ℚ)
    (hc1 : σ.nDer1Samples = none) (hc2 : σ.nDer2Samples = none)
    (hsep : m.wlMax * (1 / 10 ^ 3) < m.wlMin) (h : m.wlMin < m.wlMax) :
    m.nDer2 σ w = ((interp1d m.wls (der2Samples m) w).map fun v => v * 10 ^ 9,
      ⟨some (der1Samples m), some (der2Samples m), σ.epsCalls + 100⟩) := by
  rw [Material.nDer2, Material._nDer2, hc2, nDer1List_wls_fresh m σ hc1 hsep h]
  rfl

theorem nDer2_cached (m : Material) (σ : CacheState) (w : ℚ) {ys : List ℝ}
    (hc : σ.nDer2Samples = some ys) :
    m.nDer2 σ w = ((interp1d m.wls ys w).map fun v => v * 10 ^ 9, σ) := by
  rw [Material.nDer2, Material._nDer2, hc]

/-! ## Claims -/

theorem cauchy_foldl (w : ℚ) (cs : List ℚ) :
    ∀ (k : ℕ) (a : ℚ),
      (cs.enumFrom k).foldl (fun n ic => n + ic.2 / w ^ (2 * ic.1)) a
        = a + ∑ i ∈ Finset.range cs.length, cs.getD i 0 / w ^ (2 * (k + i)) := by
  induction cs with
  | nil =>
    intro k a
    simp [List.enumFrom]
  | cons c cs ih =>
    intro k a
    have hstep : (c :: cs).enumFrom k = (k, c) :: cs.enumFrom (k + 1) := rfl
    rw [hstep, List.foldl_cons, ih (k + 1) (a + c / w ^ (2 * k)), List.length_cons,
      Finset.sum_range_succ']
    simp only [List.getD_cons_succ, List.getD_cons_zero, Nat.add_zero]
    rw [Finset.sum_congr rfl fun i _ => by rw [show k + 1 + i = k + (i + 1) by omega]]
    ring

/-- Claim C8: `cauchy_equation(w, coefficients)` equals the sum over `i` of
`coefficients[i] / w^(2i)`; in particular
`cauchy_equation(0.5, [1.5525, 0.00629, 0.0004])` equals
`1.5525 + 0.00629/0.25 + 0.0004/0.0625` computed directly. -/
theorem claim_C8 :
    (∀ (w : ℚ) (cs : List ℚ),
        Material._cauchy_equation w cs
          = ∑ i ∈ Finset.range cs.length, cs.getD i 0 / w ^ (2 * i))
  ∧ Material._cauchy_equation (5 / 10) [15525 / 10000, 629 / 100000, 4 / 10000]
      = 15525 / 10000 + (629 / 100000) / (25 / 100) + (4 / 10000) / (625 / 10000) := by
  constructor
  · intro w cs
    rw [Material._cauchy_equation, List.enum, cauchy_foldl w cs 0 0]
    simp
  · rw [Material._cauchy_equation]
    norm_num [List.enum, List.enumFrom]

/-- Claim C9: the sentinel "no value" passes through the unit normalizer
with no scaling and no range validation, and the decorated `eps` forwards it
unchanged to the wrapped provider, so `eps` can be invoked without a
wavelength. -/
theorem claim_C9 :
    (∀ m : Material, convertOpt m none = .ok none)
  ∧ (∀ (m : Material) (σ : CacheState),
      m.eps σ none = (.ok (m._eps none),
        ⟨σ.nDer1Samples, σ.nDer2Samples, σ.epsCalls + 1⟩)) :=
  ⟨fun _ => rfl, fun m σ => eps_none m σ⟩

/-- Claim C10: for bounds with `wlMin > wlMax*1e-3` (true for the default
300–5000 nm bounds), the normalizer is the identity on in-range nanometre
values: the factor is 1 and the value is returned unchanged, which also
makes the inner re-normalization performed by `eps`/`n` on behalf of `ng`,
`gvd` and `beta0` harmless. -/
theorem claim_C10 (m : Material) (w : ℚ)
    (hsep : m.wlMax * (1 / 10 ^ 3) < m.wlMin)
    (hlo : m.wlMin ≤ w) (hhi : w ≤ m.wlMax) :
    wlFactor m w = 1
  ∧ convertScalar m w = .ok w
  ∧ convertOpt m (some w) = .ok (some w)
  ∧ ∀ σ : CacheState, (m.eps σ (some w)).1 = .ok (m._eps (some w)) := by
  refine ⟨wlFactor_eq_one m hsep hlo hhi, convertScalar_in_range m hsep hlo hhi, ?_, ?_⟩
  · rw [convertOpt, convertScalar_in_range m hsep hlo hhi]
    rfl
  · intro σ
    rw [eps_some m σ (convertScalar_in_range m hsep hlo hhi)]

theorem claim_C10_witness :
    (mat0.wlMax * (1 / 10 ^ 3) < mat0.wlMin
      ∧ mat0.wlMin ≤ (1550 : ℚ) ∧ (1550 : ℚ) ≤ mat0.wlMax)
  ∧ (wlFactor mat0 1550 = 1
      ∧ convertScalar mat0 1550 = .ok 1550
      ∧ convertOpt mat0 (some 1550) = .ok (some 1550)
      ∧ ∀ σ : CacheState, (mat0.eps σ (some 1550)).1 = .ok (mat0._eps (some 1550))) :=
  ⟨⟨by norm_num [mat0, matDef], by norm_num [mat0, matDef], by norm_num [mat0, matDef]⟩,
    claim_C10 mat0 1550 (by norm_num [mat0, matDef]) (by norm_num [mat0, matDef])
      (by norm_num [mat0, matDef])⟩

/-- Claim C7: the sampling grid is a fixed, deterministic, strictly ordered
sequence of exactly 100 wavelengths spanning `[wlMin, wlMax)` — starting at
`wlMin`, at uniform step `(wlMax - wlMin)/100`, with `wlMax` excluded — a
pure function of the construction-time bounds, and it is the data the
derivative caches are built over. -/
theorem claim_C7 (m : Material) (hb : m.wlMin < m.wlMax) :
    m.wls.length = 100
  ∧ m.wls.head? = some m.wlMin
  ∧ (∀ i : ℕ, i < 100 → m.wls.getD i 0 = m.wlMin + i * ((m.wlMax - m.wlMin) / 100))
  ∧ m.wls.Pairwise (· < ·)
  ∧ (∀ w ∈ m.wls, m.wlMin ≤ w ∧ w < m.wlMax)
  ∧ (∀ i : ℕ, i + 1 < 100 → m.wls.getD (i + 1) 0 - m.wls.getD i 0 = m.wlStep)
  ∧ m.wlStep = (m.wlMax - m.wlMin) / 100 := by
  refine ⟨wls_length m, wls_head? m, fun i hi => wls_getD m hi, wls_pairwise m hb,
    wls_mem_bounds m hb, ?_, rfl⟩
  intro i hi
  rw [wls_getD m (by omega), wls_getD m (by omega), Material.wlStep]
  push_cast
  ring

theorem claim_C7_witness :
    mat0.wlMin < mat0.wlMax
  ∧ (mat0.wls.length = 100
      ∧ mat0.wls.head? = some mat0.wlMin
      ∧ (∀ i : ℕ, i < 100 →
          mat0.wls.getD i 0 = mat0.wlMin + i * ((mat0.wlMax - mat0.wlMin) / 100))
      ∧ mat0.wls.Pairwise (· < ·)
      ∧ (∀ w ∈ mat0.wls, mat0.wlMin ≤ w ∧ w < mat0.wlMax)
      ∧ (∀ i : ℕ, i + 1 < 100 →
          mat0.wls.getD (i + 1) 0 - mat0.wls.getD i 0 = mat0.wlStep)
      ∧ mat0.wlStep = (mat0.wlMax - mat0.wlMin) / 100) :=
  ⟨by norm_num [mat0, matDef], claim_C7 mat0 (by norm_num [mat0, matDef])⟩

/-- Claim C1: for a non-sentinel input, the normalizer multiplies by `1e9`
when every value is at most `wlMax*1e-9`, else by `1e3` when every value is
at most `wlMax*1e-3`, else by 1; for a material valid over 300–5000 nm the
inputs `1.55e-6`, `1.55` and `1550` all resolve to 1550 nm and give
identical index results. -/
theorem claim_C1 :
    (∀ (m : Material) (ws : List ℚ),
        wlFactorBatch m ws =
          if ∀ w ∈ ws, w ≤ m.wlMax * (1 / 10 ^ 9) then 10 ^ 9
          else if ∀ w ∈ ws, w ≤ m.wlMax * (1 / 10 ^ 3) then 10 ^ 3
          else 1)
  ∧ (∀ (m : Material) (w : ℚ),
        wlFactor m w =
          if w ≤ m.wlMax * (1 / 10 ^ 9) then 10 ^ 9
          else if w ≤ m.wlMax * (1 / 10 ^ 3) then 10 ^ 3
          else 1)
  ∧ convertScalar mat0 (155 / 10 ^ 8) = .ok 1550
  ∧ convertScalar mat0 (155 / 100) = .ok 1550
  ∧ convertScalar mat0 1550 = .ok 1550
  ∧ (∀ (f : Option ℚ → ℝ) (σ : CacheState),
      (matDef f).n σ (some (155 / 10 ^ 8)) = (matDef f).n σ (some 1550)
      ∧ (matDef f).n σ (some (155 / 100)) = (matDef f).n σ (some 1550)) := by
  refine ⟨?_, fun m w => rfl, ?_, ?_, ?_, ?_⟩
  · intro m ws
    rw [wlFactorBatch]
    by_cases h9 : ∀ w ∈ ws, w ≤ m.wlMax * (1 / 10 ^ 9)
    · rw [if_pos, if_pos h9]
      rw [List.all_eq_true]
      intro x hx
      rw [decide_eq_true_eq]
      exact h9 x hx
    · rw [if_neg, if_neg h9]
      · by_cases h3 : ∀ w ∈ ws, w ≤ m.wlMax * (1 / 10 ^ 3)
        · rw [if_pos, if_pos h3]
          rw [List.all_eq_true]
          intro x hx
          rw [decide_eq_true_eq]
          exact h3 x hx
        · rw [if_neg, if_neg h3]
          intro hall
          rw [List.all_eq_true] at hall
          exact h3 fun x hx => by
            have := hall x hx
            rwa [decide_eq_true_eq] at this
      · intro hall
        rw [List.all_eq_true] at hall
        exact h9 fun x hx => by
          have := hall x hx
          rwa [decide_eq_true_eq] at this
  · norm_num [convertScalar, wlFactor, mat0, matDef]
  · norm_num [convertScalar, wlFactor, mat0, matDef]
  · norm_num [convertScalar, wlFactor, mat0, matDef]
  · intro f σ
    have h1 : convertScalar (matDef f) (155 / 10 ^ 8) = .ok 1550 := by
      norm_num [convertScalar, wlFactor, matDef]
    have h2 : convertScalar (matDef f) (155 / 100) = .ok 1550 := by
      norm_num [convertScalar, wlFactor, matDef]
    have h3 : convertScalar (matDef f) 1550 = .ok 1550 := by
      norm_num [convertScalar, wlFactor, matDef]
    exact ⟨by rw [n_some _ _ h1, n_some _ _ h3], by rw [n_some _ _ h2, n_some _ _ h3]⟩

/-- Claim C2: after scaling, the normalizer fails with the range error
naming the material's bounds exactly when some scaled value lies outside
`[wlMin, wlMax]`, and succeeds otherwise; decorated operations propagate the
error; queries exactly at the bounds succeed, and queries 1 nm outside them
fail. -/
theorem claim_C2 :
    (∀ (m : Material) (ws : List ℚ),
        convertBatch m ws =
          if ∀ wl ∈ ws.map fun w => w * wlFactorBatch m ws, m.wlMin ≤ wl ∧ wl ≤ m.wlMax
          then .ok (ws.map fun w => w * wlFactorBatch m ws)
          else .error (.range m.wlMin m.wlMax))
  ∧ (∀ (m : Material) (w : ℚ),
        convertScalar m w =
          if m.wlMin ≤ w * wlFactor m w ∧ w * wlFactor m w ≤ m.wlMax
          then .ok (w * wlFactor m w)
          else .error (.range m.wlMin m.wlMax))
  ∧ (∀ (m : Material) (σ : CacheState) (w : ℚ) (e : MatError),
      convertScalar m w = .error e →
        (m.ng σ w).1 = .error e ∧ (m.eps σ (some w)).1 = .error e)
  ∧ convertScalar mat0 300 = .ok 300
  ∧ convertScalar mat0 5000 = .ok 5000
  ∧ convertScalar mat0 299 = .error (.range 300 5000)
  ∧ convertScalar mat0 5001 = .error (.range 300 5000) := by
  refine ⟨?_, fun m w => rfl, ?_, ?_, ?_, ?_, ?_⟩
  · intro m ws
    rw [convertBatch]
    by_cases hc : ∀ wl ∈ ws.map fun w => w * wlFactorBatch m ws, m.wlMin ≤ wl ∧ wl ≤ m.wlMax
    · rw [if_pos, if_pos hc]
      rw [List.all_eq_true]
      intro x hx
      rw [Bool.and_eq_true, decide_eq_true_eq, decide_eq_true_eq]
      exact hc x hx
    · rw [if_neg, if_neg hc]
      intro hall
      rw [List.all_eq_true] at hall
      exact hc fun x hx => by
        have := hall x hx
        rwa [Bool.and_eq_true, decide_eq_true_eq, decide_eq_true_eq] at this
  · intro m σ w e he
    constructor
    · rw [Material.ng, he]
    · simp only [Material.eps, convertOpt, he, Except.map]
  · norm_num [convertScalar, wlFactor, mat0, matDef]
  · norm_num [convertScalar, wlFactor, mat0, matDef]
  · norm_num [convertScalar, wlFactor, mat0, matDef]
  · norm_num [convertScalar, wlFactor, mat0, matDef]

/-- Claim C6: the group index is the index minus the wavelength in metres
times the first index derivative (in 1/m), with the wavelength normalized
once by the decorator and the same normalized value passed to `n` and
`nDer1` (errors of either sub-call propagate). -/
theorem claim_C6 (m : Material) (σ : CacheState) (w wl : ℚ)
    (hconv : convertScalar m w = .ok wl) :
    (m.ng σ w).1 =
      (m.n σ (some wl)).1.bind fun nv =>
        (m.nDer1 (m.n σ (some wl)).2 wl).1.map fun dv =>
          nv - ((wl * (1 / 10 ^ 9) : ℚ) : ℝ) * dv := by
  rw [Material.ng, hconv]
  cases h1 : (m.n σ (some wl)).1 with
  | error e => simp [h1, Except.bind]
  | ok nv =>
    cases h2 : (m.nDer1 (m.n σ (some wl)).2 wl).1 with
    | error e => simp [h1, h2, Except.bind, Except.map]
    | ok dv => simp [h1, h2, Except.bind, Except.map]

theorem claim_C6_witness :
    convertScalar mat0 1550 = .ok 1550
  ∧ (mat0.ng initState 1550).1 =
      ((mat0.n initState (some 1550)).1.bind fun nv =>
        (mat0.nDer1 (mat0.n initState (some 1550)).2 1550).1.map fun dv =>
          nv - ((1550 * (1 / 10 ^ 9) : ℚ) : ℝ) * dv) :=
  ⟨by norm_num [convertScalar, wlFactor, mat0, matDef],
    claim_C6 mat0 initState 1550 1550
      (by norm_num [convertScalar, wlFactor, mat0, matDef])⟩

/-! ## Concrete evaluation of the constant-permittivity material -/

theorem nSamples_mat0 : nSamples mat0 = List.replicate 100 0 := by
  rw [nSamples,
    List.map_congr_left (g := fun _ : ℚ => (0 : ℝ)) fun a _ => by
      show Real.sqrt 0 = 0
      exact Real.sqrt_zero,
    List.map_const', wls_length]

theorem der1Samples_mat0 : der1Samples mat0 = List.replicate 100 0 := by
  rw [der1Samples, nSamples_mat0]
  exact npGradient_replicate (by norm_num) 0 mat0.wlStep

theorem inDomain_mat0_1550 : inDomain mat0.wls 1550 = true := by
  rw [inDomain, wls_head? mat0, wls_getLast? mat0]
  norm_num [mat0, matDef]

theorem nDer1_mat0_val (σ : CacheState) (hc : σ.nDer1Samples = none) :
    (mat0.nDer1 σ 1550).1 = .ok 0 := by
  rw [nDer1_fresh mat0 σ 1550 hc (by norm_num [mat0, matDef]) (by norm_num [mat0, matDef])]
  show (interp1d mat0.wls (der1Samples mat0) 1550).map (fun v => v * 10 ^ 9) = .ok 0
  rw [interp1d, if_pos inDomain_mat0_1550, der1Samples_mat0, interpVal_zeros]
  show Except.ok ((0 : ℝ) * 10 ^ 9) = .ok 0
  rw [zero_mul]

theorem ng_mat0 : (mat0.ng initState 1550).1 = .ok 0 := by
  have hconv : convertScalar mat0 1550 = .ok 1550 := by
    norm_num [convertScalar, wlFactor, mat0, matDef]
  have hn := n_some mat0 initState hconv
  have hder := nDer1_mat0_val ⟨initState.nDer1Samples, initState.nDer2Samples,
    initState.epsCalls + 1⟩ rfl
  rw [Material.ng, hconv]
  simp only [hn, hder]
  show Except.ok (Real.sqrt (mat0._eps (some 1550)) - ((1550 * (1 / 10 ^ 9) : ℚ) : ℝ) * 0)
      = .ok 0
  rw [show mat0._eps (some 1550) = (0 : ℝ) from rfl, Real.sqrt_zero, mul_zero, sub_zero]

/-- Claim C5: `vg` is exactly `speed_of_light` divided by the group index,
and `beta1` is exactly the reciprocal of `vg` (definitional identities,
stated on the values whenever the group index evaluates successfully). -/
theorem claim_C5 (m : Material) (σ : CacheState) (w : ℚ) (g : ℝ)
    (hg : (m.ng σ w).1 = .ok g) :
    (m.vg σ w).1 = .ok (speed_of_light / g)
  ∧ (m.beta1 σ w).1 = .ok (1 / (speed_of_light / g)) := by
  constructor
  · rw [Material.vg, hg]
    rfl
  · rw [Material.beta1, Material.vg, hg]
    rfl

theorem claim_C5_witness :
    (mat0.ng initState 1550).1 = .ok 0
  ∧ ((mat0.vg initState 1550).1 = .ok (speed_of_light / 0)
      ∧ (mat0.beta1 initState 1550).1 = .ok (1 / (speed_of_light / 0))) :=
  ⟨ng_mat0, claim_C5 mat0 initState 1550 0 ng_mat0⟩

theorem runNDer1_cached (m : Material) (ws : List ℚ) :
    ∀ (σ : CacheState) (ys : List ℝ), σ.nDer1Samples = some ys → runNDer1 m σ ws = σ := by
  induction ws with
  | nil => intro σ ys _; rfl
  | cons x ws ih =>
    intro σ ys hc
    rw [runNDer1, List.foldl_cons]
    have hstate : (m.nDer1 σ x).2 = σ := by rw [nDer1_cached m σ x hc]
    rw [hstate]
    have := ih σ ys hc
    rwa [runNDer1] at this

/-- Claim C4: two consecutive `nDer1` calls at the same wavelength agree
(same value, same state), and starting from a fresh instance any non-empty
sequence of `nDer1` queries consults the permittivity provider at exactly
the 100 grid points once: the cache is built by the first call and never
recomputed. -/
theorem claim_C4 (m : Material) (σ : CacheState) (w : ℚ) (ws : List ℚ)
    (hsep : m.wlMax * (1 / 10 ^ 3) < m.wlMin) (hb : m.wlMin < m.wlMax) :
    m.nDer1 (m.nDer1 σ w).2 w = ((m.nDer1 σ w).1, (m.nDer1 σ w).2)
  ∧ (runNDer1 m initState (w :: ws)).epsCalls = 100
  ∧ (runNDer1 m initState (w :: ws)).nDer1Samples = some (der1Samples m) := by
  have hσ1 : (m.nDer1 initState w).2 = ⟨some (der1Samples m), none, 100⟩ := by
    rw [nDer1_fresh m initState w rfl hsep hb]
    rfl
  have hrun : runNDer1 m initState (w :: ws) = ⟨some (der1Samples m), none, 100⟩ := by
    rw [runNDer1, List.foldl_cons, hσ1]
    have := runNDer1_cached m ws ⟨some (der1Samples m), none, 100⟩ (der1Samples m) rfl
    rwa [runNDer1] at this
  refine ⟨?_, by rw [hrun], by rw [hrun]⟩
  cases hc : σ.nDer1Samples with
  | some ys =>
    have h1 := nDer1_cached m σ w hc
    rw [h1]
    rw [nDer1_cached m σ w hc]
  | none =>
    have h1 := nDer1_fresh m σ w hc hsep hb
    rw [h1]
    rw [nDer1_cached m ⟨some (der1Samples m), σ.nDer2Samples, σ.epsCalls + 100⟩ w rfl]

theorem claim_C4_witness :
    (mat0.wlMax * (1 / 10 ^ 3) < mat0.wlMin ∧ mat0.wlMin < mat0.wlMax)
  ∧ (mat0.nDer1 (mat0.nDer1 initState 1550).2 1550
        = ((mat0.nDer1 initState 1550).1, (mat0.nDer1 initState 1550).2)
      ∧ (runNDer1 mat0 initState (1550 :: [])).epsCalls = 100
      ∧ (runNDer1 mat0 initState (1550 :: [])).nDer1Samples = some (der1Samples mat0)) :=
  ⟨⟨by norm_num [mat0, matDef], by norm_num [mat0, matDef]⟩,
    claim_C4 mat0 initState 1550 []
      (by norm_num [mat0, matDef]) (by norm_num [mat0, matDef])⟩

/-- Claim C3 (amended): the first `nDer1` call samples the index over the
fixed 100-point grid, takes the numpy gradient (central differences at
interior points, one-sided at the two endpoints, uniform step), builds the
piecewise-linear interpolant (which passes through the sampled nodes),
caches it, and every call returns the interpolant's value times `1e9` at
the wavelength as passed — `nDer1` itself performs no unit normalization
(its callers, such as `ng`, hand it an already-normalized wavelength);
`nDer2` is built the same way from the sampled first derivative. -/
theorem claim_C3 (m : Material) (c2 : Option (List ℝ)) (k : ℕ) (w : ℚ) (ys : List ℝ)
    (hsep : m.wlMax * (1 / 10 ^ 3) < m.wlMin) (hb : m.wlMin < m.wlMax) :
    m.nDer1 ⟨none, c2, k⟩ w
      = ((interp1d m.wls (der1Samples m) w).map fun v => v * 10 ^ 9,
          ⟨some (der1Samples m), c2, k + 100⟩)
  ∧ m.nDer1 ⟨some ys, c2, k⟩ w
      = ((interp1d m.wls ys w).map fun v => v * 10 ^ 9, ⟨some ys, c2, k⟩)
  ∧ der1Samples m = npGradient (nSamples m) m.wlStep
  ∧ nSamples m = (m.wls.map fun x => Real.sqrt (m._eps (some x)))
  ∧ (∀ (vs : List ℝ) (h : ℚ) (i : ℕ), i ≠ 0 → i + 1 < vs.length →
      (npGradient vs h).getD i 0 = (vs.getD (i + 1) 0 - vs.getD (i - 1) 0) / (2 * (h : ℝ)))
  ∧ (∀ (vs : List ℝ) (h : ℚ), 2 ≤ vs.length →
      (npGradient vs h).getD 0 0 = (vs.getD 1 0 - vs.getD 0 0) / (h : ℝ)
      ∧ (npGradient vs h).getD (vs.length - 1) 0
          = (vs.getD (vs.length - 1) 0 - vs.getD (vs.length - 2) 0) / (h : ℝ))
  ∧ (∀ (xs : List ℚ) (zs : List ℝ) (i : ℕ), xs.Pairwise (· < ·) → xs.length = zs.length →
      i < xs.length → interpVal xs zs (xs.getD i 0) = zs.getD i 0)
  ∧ m.nDer2 ⟨none, none, k⟩ w
      = ((interp1d m.wls (der2Samples m) w).map fun v => v * 10 ^ 9,
          ⟨some (der1Samples m), some (der2Samples m), k + 100⟩)
  ∧ der2Samples m
      = npGradient (m.wls.map fun x => interpVal m.wls (der1Samples m) x * 10 ^ 9) m.wlStep :=
  ⟨nDer1_fresh m ⟨none, c2, k⟩ w rfl hsep hb,
    nDer1_cached m ⟨some ys, c2, k⟩ w rfl,
    rfl,
    rfl,
    fun vs h _ h0 hi => npGradient_getD_mid vs h h0 hi,
    fun vs h hl => ⟨npGradient_getD_zero vs h hl, npGradient_getD_last vs h hl⟩,
    fun xs zs _ hp hlen hi => interpVal_node xs zs hp hlen hi,
    nDer2_fresh m ⟨none, none, k⟩ w rfl rfl hsep hb,
    rfl⟩

theorem claim_C3_witness :
    (mat0.wlMax * (1 / 10 ^ 3) < mat0.wlMin ∧ mat0.wlMin < mat0.wlMax)
  ∧ mat0.nDer1 ⟨none, none, 0⟩ 1550
      = ((interp1d mat0.wls (der1Samples mat0) 1550).map fun v => v * 10 ^ 9,
          ⟨some (der1Samples mat0), none, 0 + 100⟩) :=
  ⟨⟨by norm_num [mat0, matDef], by norm_num [mat0, matDef]⟩,
    (claim_C3 mat0 none 0 1550 []
      (by norm_num [mat0, matDef]) (by norm_num [mat0, matDef])).1⟩

/-- Claim C3 counterexample: `index_derivative_1` does not evaluate the
interpolant at the normalized wavelength.  For the default-bounds material,
the input `1.55` (micrometres) normalizes to 1550 nm, and the claim
predicts the successful value `interp(1550)·1e9` (here `0`); the code
instead evaluates the interpolant at `1.55` itself, which is outside the
grid span, and raises. -/
theorem claim_C3_counterexample :
    convertScalar mat0 (155 / 100) = .ok 1550
  ∧ (mat0.nDer1 initState (155 / 100)).1 = .error .interp
  ∧ (mat0.nDer1 initState (155 / 100)).2.nDer1Samples = some (der1Samples mat0)
  ∧ ((interp1d mat0.wls (der1Samples mat0) 1550).map fun v => v * 10 ^ 9)
      = .ok (0 : ℝ)
  ∧ (Except.error MatError.interp : Except MatError ℝ) ≠ .ok (0 : ℝ) := by
  have hsep : mat0.wlMax * (1 / 10 ^ 3) < mat0.wlMin := by norm_num [mat0, matDef]
  have hb : mat0.wlMin < mat0.wlMax := by norm_num [mat0, matDef]
  have hf := nDer1_fresh mat0 initState (155 / 100) rfl hsep hb
  have hdom : inDomain mat0.wls (155 / 100) = false := by
    rw [inDomain, wls_head? mat0, wls_getLast? mat0]
    have : ¬((300 : ℚ) ≤ 155 / 100) := by norm_num [mat0, matDef]
    simp [mat0, matDef, this]
  refine ⟨by norm_num [convertScalar, wlFactor, mat0, matDef], ?_, ?_, ?_, by simp⟩
  · rw [hf]
    show (interp1d mat0.wls (der1Samples mat0) (155 / 100)).map (fun v => v * 10 ^ 9)
        = .error .interp
    rw [interp1d, hdom]
    rfl
  · rw [hf]
  · rw [interp1d, if_pos inDomain_mat0_1550, der1Samples_mat0, interpVal_zeros]
    show Except.ok ((0 : ℝ) * 10 ^ 9) = .ok 0
    rw [zero_mul]
